import Mathlib

/-
Shallow embedding of the Wayland clipboard-listener backend of
rustdesk-org/clipboard-master (src/master/wayland.rs).

The backend speaks the wlr-data-control protocol: it discovers the seat and
the data-control manager through the registry, binds a data-control device,
and accumulates the mime types advertised on selection offers.  The mutable
Rust struct `WlClipboardListener` becomes an explicit state record; the
per-object `Dispatch` impls become pure transition functions on that record
that additionally emit the protocol requests they issue (source creation,
selection setting, offer destruction) as an effect list.  The shared
`Arc<AtomicBool>` exit flag is written by other threads, so it is modelled
as an external time-indexed function `flag : Nat → Bool` read by the
`get_message` loop; the backend itself only ever loads it.  The blocking
socket reads of `get_message` are modelled by a schedule of per-iteration
read outcomes plus a fuel bound, and the 100 ms poll sleep is tracked as an
elapsed-milliseconds counter.
-/

namespace ClipboardMaster

/-- Result record returned by `get_message`: the ordered list of mime types
advertised for the detected clipboard change (wayland.rs lines 18-21). -/
structure ClipBoardListenMessage where
  mime_types : List String
deriving Repr, DecidableEq

/-- State of `WlClipboardListener` (wayland.rs lines 23-32).  Wayland proxies
are abstracted to their registry numeric names; `queue` records whether the
event queue has been stored (`queue: Option<...>` in Rust); the shared
`exit_flag` lives outside this record because it is written by other
threads and only read here. -/
structure WlClipboardListener where
  seat : Option Nat
  seat_name : Option String
  data_manager : Option Nat
  data_device : Option Nat
  mime_types : List String
  queue : Bool
  copied : Bool
deriving Repr, DecidableEq

/-- Interface name of `wl_seat::WlSeat` compared against in the registry
dispatch (wayland.rs line 170). -/
def wl_seat_interface_name : String := "wl_seat"

/-- Interface name of `ZwlrDataControlManagerV1` compared against in the
registry dispatch (wayland.rs lines 172-174). -/
def data_manager_interface_name : String := "zwlr_data_control_manager_v1"

/-- Events of the `wl_registry` object. -/
inductive RegistryEvent where
  | global (name : Nat) (ifc : String) (version : Nat)
  | globalRemove (name : Nat)
deriving Repr, DecidableEq

/-- Events of the `wl_seat` object. -/
inductive SeatEvent where
  | name (n : String)
  | capabilities
deriving Repr, DecidableEq

/-- Events of the `ZwlrDataControlDeviceV1` object. -/
inductive DeviceEvent where
  | dataOffer (id : Nat)
  | finished
  | primarySelection (id : Option Nat)
  | selection (id : Option Nat)
deriving Repr, DecidableEq

/-- Any event a dispatch round can deliver; `offer oid m` is an
`Event::Offer` carrying mime type `m` on the data-control offer object
`oid` (the Rust handler does not inspect which offer it arrives on). -/
inductive WlEvent where
  | reg (ev : RegistryEvent)
  | seatEv (ev : SeatEvent)
  | dev (ev : DeviceEvent)
  | offer (offerId : Nat) (mimeType : String)
deriving Repr, DecidableEq

/-- Protocol requests issued by the dispatch handlers. -/
inductive WlEffect where
  | createDataSource
  | setSelection
  | destroyOffer (id : Nat)
deriving Repr, DecidableEq

/-- Registry dispatch (wayland.rs lines 155-186): a `Global` announcement
whose interface is `wl_seat` binds the seat, one whose interface is the
data-control manager binds the manager; everything else is ignored. -/
def registry_event (s : WlClipboardListener) (ev : RegistryEvent) :
    WlClipboardListener :=
  match ev with
  | .global name ifc _version =>
    if ifc = wl_seat_interface_name then { s with seat := some name }
    else if ifc = data_manager_interface_name then
      { s with data_manager := some name }
    else s
  | .globalRemove _ => s

/-- Seat dispatch (wayland.rs lines 188-201): only the `Name` event is
handled; it records the seat name. -/
def seat_event (s : WlClipboardListener) (ev : SeatEvent) :
    WlClipboardListener :=
  match ev with
  | .name n => { s with seat_name := some n }
  | .capabilities => s

/-- Data-control device dispatch (wayland.rs lines 215-257).  `DataOffer` is
ignored; `Finished` re-arms by creating a fresh source (if the manager is
bound) and setting it as the selection (if the device is bound);
`PrimarySelection` destroys the offer when one is attached; `Selection`
with an offer sets `copied`, without one it returns early. -/
def device_event (s : WlClipboardListener) (ev : DeviceEvent) :
    WlClipboardListener × List WlEffect :=
  match ev with
  | .dataOffer _ => (s, [])
  | .finished =>
    match s.data_manager with
    | some _ =>
      (s, .createDataSource ::
        (match s.data_device with
         | some _ => [.setSelection]
         | none => []))
    | none => (s, [])
  | .primarySelection id =>
    match id with
    | some offerId => (s, [.destroyOffer offerId])
    | none => (s, [])
  | .selection id =>
    match id with
    | none => (s, [])
    | some _ => ({ s with copied := true }, [])

/-- Data-control offer dispatch (wayland.rs lines 280-293): every `Offer`
event appends its mime type to the accumulating buffer, regardless of
which offer object it arrived on. -/
def offer_event (s : WlClipboardListener) (mimeType : String) :
    WlClipboardListener :=
  { s with mime_types := s.mime_types ++ [mimeType] }

/-- Route one event to its per-object handler. -/
def dispatch_event (s : WlClipboardListener) (ev : WlEvent) :
    WlClipboardListener × List WlEffect :=
  match ev with
  | .reg rev => (registry_event s rev, [])
  | .seatEv sev => (seat_event s sev, [])
  | .dev dev => device_event s dev
  | .offer _ m => (offer_event s m, [])

/-- One `dispatch_pending` round: process the queued events in order. -/
def dispatch_pending (s : WlClipboardListener) :
    List WlEvent → WlClipboardListener × List WlEffect
  | [] => (s, [])
  | ev :: rest =>
    let p := dispatch_event s ev
    let q := dispatch_pending p.1 rest
    (q.1, p.2 ++ q.2)

/-- `device_ready` (wayland.rs lines 77-79): both the seat and the data
manager have been bound. -/
def device_ready (s : WlClipboardListener) : Bool :=
  s.seat.isSome && s.data_manager.isSome

/-- `set_data_device` (wayland.rs lines 81-89): bind the data-control
device when both the seat and the manager are present, otherwise do
nothing.  The fresh device proxy is abstracted to `0`. -/
def set_data_device (s : WlClipboardListener) : WlClipboardListener :=
  match s.seat, s.data_manager with
  | some _, some _ => { s with data_device := some 0 }
  | _, _ => s

/-- The freshly constructed state in `init` (wayland.rs lines 47-56). -/
def fresh_listener_state : WlClipboardListener :=
  { seat := none, seat_name := none, data_manager := none,
    data_device := none, mime_types := [], queue := false, copied := false }

example : registry_event fresh_listener_state (.global 7 "wl_seat" 5) =
    { fresh_listener_state with seat := some 7 } := by decide

example :
    (dispatch_pending fresh_listener_state
      [.dev (.dataOffer 1), .offer 1 "text/a", .dev (.selection (some 1))]).1 =
    { fresh_listener_state with mime_types := ["text/a"], copied := true } := by
  decide

/-- Errors produced by `init` (wayland.rs lines 35-75).  `capabilityMissing`
is the `"Cannot get seat and data manager"` error returned when
`device_ready` fails after the initial blocking dispatch. -/
inductive InitError where
  | connectFailed
  | initialDispatchFailed
  | capabilityMissing
  | roundtripFailed
deriving Repr, DecidableEq

/-- The `while state.seat_name.is_none()` roundtrip loop of `init`
(wayland.rs lines 66-70): each round either fails (`rounds k = none` models
a roundtrip error) or dispatches its events.  `none` as overall result
means the loop is still spinning when the fuel runs out. -/
def seat_name_rounds (rounds : Nat → Option (List WlEvent))
    (s : WlClipboardListener) (k : Nat) :
    Nat → Option (Except InitError WlClipboardListener)
  | 0 => if s.seat_name.isSome then some (.ok s) else none
  | fuel + 1 =>
    if s.seat_name.isSome then some (.ok s)
    else
      match rounds k with
      | none => some (.error .roundtripFailed)
      | some evs =>
        seat_name_rounds rounds (dispatch_pending s evs).1 (k + 1) fuel

/-- `WlClipboardListener::init` (wayland.rs lines 35-75): connect, dispatch
one blocking round (`connect = false` models a connection failure,
`initial = none` a failed initial dispatch), fail with `capabilityMissing`
unless `device_ready` holds, run roundtrips until the seat name arrives,
then bind the data device and store the event queue. -/
def init (connect : Bool) (initial : Option (List WlEvent))
    (rounds : Nat → Option (List WlEvent)) (fuel : Nat) :
    Option (Except InitError WlClipboardListener) :=
  if connect then
    match initial with
    | none => some (.error .initialDispatchFailed)
    | some evs =>
      let s1 := (dispatch_pending fresh_listener_state evs).1
      if device_ready s1 then
        match seat_name_rounds rounds s1 0 fuel with
        | none => none
        | some (.error e) => some (.error e)
        | some (.ok s2) =>
          some (.ok { set_data_device s2 with queue := true })
      else some (.error .capabilityMissing)
  else some (.error .connectFailed)

/-- Errors produced by `get_message` (wayland.rs lines 91-144), one per
`io::Error` construction site.  `cancelled` is the
`"Exit signal received, exiting"` error. -/
inductive WlReadError where
  | queueUninit
  | cancelled
  | flushFailed
  | prepareReadFailed
  | readFailed
deriving Repr, DecidableEq

/-- Outcome of one iteration of the `get_message` loop: the flush or the
read preparation fails, the non-blocking read returns `Ok(count)` with the
events it decoded, it would block, or it fails.  The embedded dispatch
handlers are total, so `dispatch_pending` itself cannot fail here. -/
inductive IterInput where
  | flushErr
  | prepareErr
  | readOk (count : Nat) (events : List WlEvent)
  | readWouldBlock
  | readErr
deriving Repr, DecidableEq

/-- The fixed poll sleep of the would-block branch, in milliseconds
(wayland.rs line 131). -/
def pollIntervalMs : Nat := 100

/-- The `loop` of `get_message` (wayland.rs lines 101-140).  `flag i` is the
value of the shared exit flag as observed at iteration `i` (the flag is
only ever loaded here, never stored); `sched i` is iteration `i`'s read
outcome; `elapsed` accumulates the milliseconds slept in would-block
iterations.  Each iteration checks the exit flag first, then flushes,
prepares a read and reads: a read of `count > 0` dispatches the events and,
if `copied` is now set, clears `copied` and returns the accumulated
`mime_types`; a would-block read sleeps `pollIntervalMs` and retries.
`none` means the loop is still running when the fuel runs out. -/
def get_message_loop (flag : Nat → Bool) (sched : Nat → IterInput)
    (s : WlClipboardListener) (i : Nat) (elapsed : Nat) :
    Nat → Option (WlClipboardListener × Nat ×
      Except WlReadError ClipBoardListenMessage)
  | 0 => none
  | fuel + 1 =>
    if flag i then some (s, elapsed, .error .cancelled)
    else
      match sched i with
      | .flushErr => some (s, elapsed, .error .flushFailed)
      | .prepareErr => some (s, elapsed, .error .prepareReadFailed)
      | .readOk count evs =>
        if count > 0 then
          if (dispatch_pending s evs).1.copied then
            some ({ (dispatch_pending s evs).1 with copied := false }, elapsed,
              .ok { mime_types := (dispatch_pending s evs).1.mime_types })
          else
            get_message_loop flag sched (dispatch_pending s evs).1 (i + 1)
              elapsed fuel
        else get_message_loop flag sched s (i + 1) elapsed fuel
      | .readWouldBlock =>
        get_message_loop flag sched s (i + 1) (elapsed + pollIntervalMs) fuel
      | .readErr => some (s, elapsed, .error .readFailed)

/-- `WlClipboardListener::get_message` (wayland.rs lines 91-144): fails
immediately when the queue was never stored, otherwise runs the loop. -/
def get_message (flag : Nat → Bool) (sched : Nat → IterInput)
    (s : WlClipboardListener) (fuel : Nat) :
    Option (WlClipboardListener × Nat ×
      Except WlReadError ClipBoardListenMessage) :=
  if s.queue then get_message_loop flag sched s 0 0 fuel
  else some (s, 0, .error .queueUninit)

/-- `Iterator::next` for `WlClipboardListener` (wayland.rs lines 147-153):
`Some(self.get_message())`.  The outer `Option` is the fuel bound (`none`
when `get_message` is still blocked); the inner `Option` is the iterator
item, which the code always wraps in `Some`. -/
def listener_next (flag : Nat → Bool) (sched : Nat → IterInput)
    (s : WlClipboardListener) (fuel : Nat) :
    Option (Option (WlClipboardListener × Nat ×
      Except WlReadError ClipBoardListenMessage)) :=
  match get_message flag sched s fuel with
  | some r => some (some r)
  | none => none

/-- Modelled from the spec: the Shutdown Coordinator's `signal()` operation
is not under src/ (only the backend that reads the flag is); per the spec it
"sets the shared cancellation flag" with set-once-then-stays-true
semantics and no reset. -/
def signal (_flag : Bool) : Bool := true

/-- States reachable by the backend: a successful `init`, followed by any
interleaving of dispatched events and completed `get_message` calls. -/
inductive Reachable : WlClipboardListener → Prop where
  | ofInit : ∀ connect initial rounds fuel s,
      init connect initial rounds fuel = some (.ok s) → Reachable s
  | ofDispatch : ∀ s ev, Reachable s → Reachable (dispatch_event s ev).1
  | ofMessage : ∀ s flag sched fuel s' t r, Reachable s →
      get_message flag sched s fuel = some (s', t, r) → Reachable s'

/-- Registry and seat events delivering both capabilities and the seat name
in one dispatch round; used to instantiate the theorems on a concrete run. -/
def demo_init_events : List WlEvent :=
  [.reg (.global 1 "wl_seat" 5),
   .reg (.global 2 "zwlr_data_control_manager_v1" 1),
   .seatEv (.name "default")]

/-- The state `init` produces on `demo_init_events`. -/
def demo_ready_state : WlClipboardListener :=
  { seat := some 1, seat_name := some "default", data_manager := some 2,
    data_device := some 0, mime_types := [], queue := true, copied := false }

example : init true (some demo_init_events) (fun _ => some []) 0 =
    some (.ok demo_ready_state) := by rfl

/-- No dispatch handler unbinds the data device or the queue, and none can
unbind the seat or the data manager once they are present. -/
theorem dispatch_event_fields (s : WlClipboardListener) (ev : WlEvent) :
    (dispatch_event s ev).1.data_device = s.data_device ∧
    (dispatch_event s ev).1.queue = s.queue ∧
    (s.seat.isSome = true → (dispatch_event s ev).1.seat.isSome = true) ∧
    (s.data_manager.isSome = true →
      (dispatch_event s ev).1.data_manager.isSome = true) := by
  cases ev with
  | reg rev =>
    cases rev with
    | global name ifc version =>
      have hne : data_manager_interface_name ≠ wl_seat_interface_name := by
        decide
      by_cases h1 : ifc = wl_seat_interface_name
      · simp [dispatch_event, registry_event, h1]
      · by_cases h2 : ifc = data_manager_interface_name <;>
          simp [dispatch_event, registry_event, h1, h2, hne]
    | globalRemove name => simp [dispatch_event, registry_event]
  | seatEv sev => cases sev <;> simp [dispatch_event, seat_event]
  | dev dev =>
    cases dev with
    | dataOffer id => simp [dispatch_event, device_event]
    | finished =>
      cases hm : s.data_manager <;> cases hd : s.data_device <;>
        simp [dispatch_event, device_event, hm, hd]
    | primarySelection id => cases id <;> simp [dispatch_event, device_event]
    | selection id => cases id <;> simp [dispatch_event, device_event]
  | offer oid m => simp [dispatch_event, offer_event]

/-- `dispatch_pending` preserves the same fields as each single dispatch. -/
theorem dispatch_pending_fields (evs : List WlEvent) :
    ∀ s : WlClipboardListener,
    (dispatch_pending s evs).1.data_device = s.data_device ∧
    (dispatch_pending s evs).1.queue = s.queue ∧
    (s.seat.isSome = true → (dispatch_pending s evs).1.seat.isSome = true) ∧
    (s.data_manager.isSome = true →
      (dispatch_pending s evs).1.data_manager.isSome = true) := by
  induction evs with
  | nil => intro s; simp [dispatch_pending]
  | cons ev rest ih =>
    intro s
    have h1 := dispatch_event_fields s ev
    have h2 := ih (dispatch_event s ev).1
    simp only [dispatch_pending]
    exact ⟨h2.1.trans h1.1, h2.2.1.trans h1.2.1,
      fun h => h2.2.2.1 (h1.2.2.1 h), fun h => h2.2.2.2 (h1.2.2.2 h)⟩

/-- The seat-name roundtrip loop only ever fails with `roundtripFailed`. -/
theorem seat_name_rounds_error_is_roundtrip
    (rounds : Nat → Option (List WlEvent)) :
    ∀ fuel s k e, seat_name_rounds rounds s k fuel = some (.error e) →
      e = InitError.roundtripFailed := by
  intro fuel
  induction fuel with
  | zero =>
    intro s k e h
    simp only [seat_name_rounds] at h
    split at h <;> simp at h
  | succ f ih =>
    intro s k e h
    simp only [seat_name_rounds] at h
    split at h
    · simp at h
    · cases hr : rounds k with
      | none => rw [hr] at h; simp at h; exact h.symm
      | some evs => rw [hr] at h; exact ih _ _ _ h

/-- A successful seat-name loop never unbinds the device, the queue, the
seat or the data manager. -/
theorem seat_name_rounds_ok_fields (rounds : Nat → Option (List WlEvent)) :
    ∀ fuel s k s', seat_name_rounds rounds s k fuel = some (.ok s') →
      s'.data_device = s.data_device ∧ s'.queue = s.queue ∧
      (s.seat.isSome = true → s'.seat.isSome = true) ∧
      (s.data_manager.isSome = true → s'.data_manager.isSome = true) := by
  intro fuel
  induction fuel with
  | zero =>
    intro s k s' h
    simp only [seat_name_rounds] at h
    split at h
    · simp at h
      subst h
      exact ⟨rfl, rfl, fun h => h, fun h => h⟩
    · simp at h
  | succ f ih =>
    intro s k s' h
    simp only [seat_name_rounds] at h
    split at h
    · simp at h
      subst h
      exact ⟨rfl, rfl, fun h => h, fun h => h⟩
    · cases hr : rounds k with
      | none => rw [hr] at h; simp at h
      | some evs =>
        rw [hr] at h
        have h1 := dispatch_pending_fields evs s
        have h2 := ih _ _ _ h
        exact ⟨h2.1.trans h1.1, h2.2.1.trans h1.2.1,
          fun hs => h2.2.2.1 (h1.2.2.1 hs),
          fun hm => h2.2.2.2 (h1.2.2.2 hm)⟩

/-- When both capabilities are present, `set_data_device` binds the
data-control device. -/
theorem set_data_device_of_ready (s : WlClipboardListener)
    (h1 : s.seat.isSome = true) (h2 : s.data_manager.isSome = true) :
    set_data_device s = { s with data_device := some 0 } := by
  cases hs : s.seat <;> cases hm : s.data_manager <;>
    simp_all [set_data_device]

/-- A state returned by a successful `init` has the seat, the data manager
and the data device bound and the queue stored. -/
theorem init_ok_fields (connect : Bool) (initial : Option (List WlEvent))
    (rounds : Nat → Option (List WlEvent)) (fuel : Nat)
    (s : WlClipboardListener)
    (h : init connect initial rounds fuel = some (.ok s)) :
    s.seat.isSome = true ∧ s.data_manager.isSome = true ∧
      s.data_device.isSome = true ∧ s.queue = true := by
  cases connect with
  | false => simp [init] at h
  | true =>
    cases initial with
    | none => simp [init] at h
    | some evs =>
      simp only [init, if_true] at h
      split at h
      case isTrue hready =>
        cases hr : seat_name_rounds rounds
            (dispatch_pending fresh_listener_state evs).1 0 fuel with
        | none => rw [hr] at h; simp at h
        | some r =>
          cases r with
          | error e => rw [hr] at h; simp at h
          | ok s2 =>
            rw [hr] at h
            simp only [Option.some.injEq, Except.ok.injEq] at h
            have hready' :
                (dispatch_pending fresh_listener_state evs).1.seat.isSome =
                    true ∧
                (dispatch_pending fresh_listener_state
                    evs).1.data_manager.isSome = true := by
              simpa [device_ready, Bool.and_eq_true] using hready
            have hf := seat_name_rounds_ok_fields rounds fuel _ 0 s2 hr
            have hseat : s2.seat.isSome = true := hf.2.2.1 hready'.1
            have hman : s2.data_manager.isSome = true := hf.2.2.2 hready'.2
            rw [set_data_device_of_ready s2 hseat hman] at h
            subst h
            exact ⟨hseat, hman, rfl, rfl⟩
      case isFalse => simp at h
/-- A completed `get_message_loop` never unbinds the device, the queue, the
seat or the data manager, whatever the schedule delivered. -/
theorem get_message_loop_fields (flag : Nat → Bool) (sched : Nat → IterInput) :
    ∀ fuel s i e s' t r,
      get_message_loop flag sched s i e fuel = some (s', t, r) →
      s'.data_device = s.data_device ∧ s'.queue = s.queue ∧
      (s.seat.isSome = true → s'.seat.isSome = true) ∧
      (s.data_manager.isSome = true → s'.data_manager.isSome = true) := by
  intro fuel
  induction fuel with
  | zero => intro s i e s' t r h; simp [get_message_loop] at h
  | succ f ih =>
    intro s i e s' t r h
    simp only [get_message_loop] at h
    split at h
    · simp only [Option.some.injEq, Prod.mk.injEq] at h
      obtain ⟨h1, -⟩ := h
      subst h1
      exact ⟨rfl, rfl, fun x => x, fun x => x⟩
    · split at h
      case h_1 =>
        simp only [Option.some.injEq, Prod.mk.injEq] at h
        obtain ⟨h1, -⟩ := h
        subst h1
        exact ⟨rfl, rfl, fun x => x, fun x => x⟩
      case h_2 =>
        simp only [Option.some.injEq, Prod.mk.injEq] at h
        obtain ⟨h1, -⟩ := h
        subst h1
        exact ⟨rfl, rfl, fun x => x, fun x => x⟩
      case h_3 count evs heq =>
        split at h
        · split at h
          · simp only [Option.some.injEq, Prod.mk.injEq] at h
            obtain ⟨h1, -⟩ := h
            subst h1
            have hf := dispatch_pending_fields evs s
            exact ⟨hf.1, hf.2.1, hf.2.2.1, hf.2.2.2⟩
          · have hf := dispatch_pending_fields evs s
            have h2 := ih _ _ _ _ _ _ h
            exact ⟨h2.1.trans hf.1, h2.2.1.trans hf.2.1,
              fun hs => h2.2.2.1 (hf.2.2.1 hs),
              fun hm => h2.2.2.2 (hf.2.2.2 hm)⟩
        · exact ih _ _ _ _ _ _ h
      case h_4 => exact ih _ _ _ _ _ _ h
      case h_5 =>
        simp only [Option.some.injEq, Prod.mk.injEq] at h
        obtain ⟨h1, -⟩ := h
        subst h1
        exact ⟨rfl, rfl, fun x => x, fun x => x⟩

/-- A completed `get_message` call preserves the same fields. -/
theorem get_message_fields (flag : Nat → Bool) (sched : Nat → IterInput)
    (fuel : Nat) (s s' : WlClipboardListener) (t : Nat)
    (r : Except WlReadError ClipBoardListenMessage)
    (h : get_message flag sched s fuel = some (s', t, r)) :
    s'.data_device = s.data_device ∧ s'.queue = s.queue ∧
      (s.seat.isSome = true → s'.seat.isSome = true) ∧
      (s.data_manager.isSome = true → s'.data_manager.isSome = true) := by
  simp only [get_message] at h
  split at h
  · exact get_message_loop_fields flag sched fuel s 0 0 s' t r h
  · simp only [Option.some.injEq, Prod.mk.injEq] at h
    obtain ⟨h1, -⟩ := h
    subst h1
    exact ⟨rfl, rfl, fun x => x, fun x => x⟩

/-- C8: in every reachable state of the backend, the data-control device is
bound only when both the seat and the data-manager capabilities are already
known; binding never happens while either capability is missing. -/
theorem data_device_requires_both_capabilities :
    ∀ s, Reachable s → s.data_device.isSome = true →
      s.seat.isSome = true ∧ s.data_manager.isSome = true := by
  intro s hr
  induction hr with
  | ofInit connect initial rounds fuel s h =>
    intro _
    have hf := init_ok_fields connect initial rounds fuel s h
    exact ⟨hf.1, hf.2.1⟩
  | ofDispatch s ev _ ih =>
    intro hdev
    have hf := dispatch_event_fields s ev
    rw [hf.1] at hdev
    have hs := ih hdev
    exact ⟨hf.2.2.1 hs.1, hf.2.2.2 hs.2⟩
  | ofMessage s flag sched fuel s' t r _ hmsg ih =>
    intro hdev
    have hf := get_message_fields flag sched fuel s s' t r hmsg
    rw [hf.1] at hdev
    have hs := ih hdev
    exact ⟨hf.2.2.1 hs.1, hf.2.2.2 hs.2⟩

/-- C8 witness: the state reached by a concrete successful `init` has its
device bound, and the theorem yields both capabilities. -/
theorem data_device_requires_both_capabilities_witness :
    demo_ready_state.seat.isSome = true ∧
      demo_ready_state.data_manager.isSome = true :=
  data_device_requires_both_capabilities demo_ready_state
    (Reachable.ofInit true (some demo_init_events) (fun _ => some []) 0
      demo_ready_state (by rfl)) (by rfl)

/-- C2: with the connection established and the initial blocking dispatch
successful, `init` fails with the capability-missing error iff the seat or
the data manager is still unresolved after that dispatch round; when both
are present, `init` proceeds, and any successful result has the data
device bound. -/
theorem init_capability_missing_iff (evs : List WlEvent)
    (rounds : Nat → Option (List WlEvent)) (fuel : Nat) :
    (init true (some evs) rounds fuel = some (.error .capabilityMissing) ↔
      device_ready (dispatch_pending fresh_listener_state evs).1 = false) ∧
    (∀ s, init true (some evs) rounds fuel = some (.ok s) →
      s.data_device.isSome = true) := by
  constructor
  · simp only [init, if_true]
    split
    case isTrue hready =>
      constructor
      · intro h
        cases hr : seat_name_rounds rounds
            (dispatch_pending fresh_listener_state evs).1 0 fuel with
        | none => rw [hr] at h; simp at h
        | some r =>
          cases r with
          | error e =>
            rw [hr] at h
            simp only [Option.some.injEq, Except.error.injEq] at h
            have := seat_name_rounds_error_is_roundtrip rounds fuel _ 0 e hr
            simp [this] at h
          | ok s2 => rw [hr] at h; simp at h
      · intro h
        rw [hready] at h
        simp at h
    case isFalse hready =>
      simp only [true_iff]
      exact Bool.not_eq_true _ ▸ Bool.of_not_eq_true hready
  · intro s h
    exact (init_ok_fields true (some evs) rounds fuel s h).2.2.1

/-- C2 witness: on a concrete run that announces both capabilities, `init`
succeeds and the theorem yields the bound device. -/
theorem init_capability_missing_iff_witness :
    demo_ready_state.data_device.isSome = true :=
  (init_capability_missing_iff demo_init_events (fun _ => some []) 0).2
    demo_ready_state (by rfl)

/-- C3: a registry `Global` announcement binds the seat when its interface
name is `wl_seat`, binds the data manager when it is
`zwlr_data_control_manager_v1`, and leaves the state unchanged for every
other interface name; `GlobalRemove` is ignored, and a whole sequence of
announcements with no matching interface leaves the state unchanged. -/
theorem registry_binds_exactly_matching_globals (s : WlClipboardListener)
    (name version : Nat) (ifc : String) :
    (ifc = wl_seat_interface_name →
      registry_event s (.global name ifc version) =
        { s with seat := some name }) ∧
    (ifc ≠ wl_seat_interface_name → ifc = data_manager_interface_name →
      registry_event s (.global name ifc version) =
        { s with data_manager := some name }) ∧
    (ifc ≠ wl_seat_interface_name → ifc ≠ data_manager_interface_name →
      registry_event s (.global name ifc version) = s) ∧
    (∀ gname, registry_event s (.globalRemove gname) = s) ∧
    (∀ l : List RegistryEvent,
      (∀ gn gi gv, RegistryEvent.global gn gi gv ∈ l →
        gi ≠ wl_seat_interface_name ∧ gi ≠ data_manager_interface_name) →
      List.foldl registry_event s l = s) := by
  have hne : data_manager_interface_name ≠ wl_seat_interface_name := by
    decide
  refine ⟨?_, ?_, ?_, ?_, ?_⟩
  · intro h; simp [registry_event, h]
  · intro h1 h2; simp [registry_event, h1, h2, hne]
  · intro h1 h2; simp [registry_event, h1, h2]
  · intro gname; simp [registry_event]
  · intro l
    induction l generalizing s with
    | nil => intro _; rfl
    | cons ev rest ih =>
      intro hl
      have hev : registry_event s ev = s := by
        cases ev with
        | global gn gi gv =>
          have := hl gn gi gv (by simp)
          simp [registry_event, this.1, this.2]
        | globalRemove gn => simp [registry_event]
      rw [List.foldl_cons, hev]
      exact ih s fun gn gi gv hmem => hl gn gi gv (List.mem_cons_of_mem _ hmem)

/-- C3 witness: an unknown global (`wl_output`) is ignored on a concrete
state. -/
theorem registry_binds_exactly_matching_globals_witness :
    registry_event fresh_listener_state (.global 3 "wl_output" 1) =
      fresh_listener_state :=
  (registry_binds_exactly_matching_globals fresh_listener_state 3 1
    "wl_output").2.2.1 (by decide) (by decide)

/-- C5: `signal` is idempotent and set-once; the `get_message` loop checks
the cancellation flag first on every iteration and fails fast with
`cancelled` whatever the schedule would deliver; and once the flag is set
(it never resets), every `get_message` call returns `cancelled`. -/
theorem cancellation_sticky_and_signal_idempotent :
    (∀ b, signal (signal b) = signal b ∧ signal b = true) ∧
    (∀ (flag : Nat → Bool) (sched : Nat → IterInput)
        (s : WlClipboardListener) (i e fuel : Nat), flag i = true →
      get_message_loop flag sched s i e (fuel + 1) =
        some (s, e, .error .cancelled)) ∧
    (∀ (sched : Nat → IterInput) (s : WlClipboardListener) (fuel : Nat),
      s.queue = true →
      get_message (fun _ => true) sched s (fuel + 1) =
        some (s, 0, .error .cancelled)) := by
  refine ⟨fun b => ⟨rfl, rfl⟩, ?_, ?_⟩
  · intro flag sched s i e fuel h
    simp [get_message_loop, h]
  · intro sched s fuel hq
    simp [get_message, hq, get_message_loop]

/-- C5 witness: with the flag set, a concrete call returns `cancelled`
without touching the state. -/
theorem cancellation_sticky_and_signal_idempotent_witness :
    get_message (fun _ => true) (fun _ => .readWouldBlock)
      demo_ready_state 1 = some (demo_ready_state, 0, .error .cancelled) :=
  cancellation_sticky_and_signal_idempotent.2.2 (fun _ => .readWouldBlock)
    demo_ready_state 0 (by rfl)

/-- C6: handling a device `Finished` event leaves the whole state unchanged
(in particular `copied` and `mime_types`), and when the manager and the
device are bound it creates a fresh data source and sets it as the new
selection. -/
theorem finished_rearms_without_state_change (s : WlClipboardListener) :
    (device_event s .finished).1 = s ∧
    (s.data_manager.isSome = true → s.data_device.isSome = true →
      (device_event s .finished).2 =
        [WlEffect.createDataSource, WlEffect.setSelection]) := by
  cases hm : s.data_manager <;> cases hd : s.data_device <;>
    simp [device_event, hm, hd]

/-- C6 witness: on the concrete post-`init` state, `Finished` re-arms with
a fresh source and selection. -/
theorem finished_rearms_without_state_change_witness :
    (device_event demo_ready_state .finished).2 =
      [WlEffect.createDataSource, WlEffect.setSelection] :=
  (finished_rearms_without_state_change demo_ready_state).2 (by rfl) (by rfl)

/-- C7: the poll sleep is exactly 100 ms, and a loop blocked in the
would-block state returns `cancelled` at the first iteration where the
flag is observed set: with the flag first set at offset `k`, the loop
returns after exactly `k` sleeps of one poll interval, so at most one
interval elapses after the flag is set. -/
theorem cancelled_within_one_poll_interval (flag : Nat → Bool)
    (s : WlClipboardListener) :
    ∀ k i e fuel, flag (i + k) = true → (∀ j, j < k → flag (i + j) = false) →
      k < fuel →
      pollIntervalMs = 100 ∧
      get_message_loop flag (fun _ => .readWouldBlock) s i e fuel =
        some (s, e + k * pollIntervalMs, .error .cancelled) := by
  intro k
  induction k with
  | zero =>
    intro i e fuel hset hfirst hfuel
    refine ⟨rfl, ?_⟩
    cases fuel with
    | zero => exact absurd hfuel (by omega)
    | succ f =>
      have h0 : flag i = true := by simpa using hset
      simp [get_message_loop, h0]
  | succ k ih =>
    intro i e fuel hset hfirst hfuel
    refine ⟨rfl, ?_⟩
    cases fuel with
    | zero => exact absurd hfuel (by omega)
    | succ f =>
      have h0 : flag i = false := hfirst 0 (Nat.succ_pos k)
      have hset' : flag (i + 1 + k) = true := by
        have harith : i + 1 + k = i + (k + 1) := by omega
        rw [harith]; exact hset
      have hfirst' : ∀ j, j < k → flag (i + 1 + j) = false := by
        intro j hj
        have harith : i + 1 + j = i + (j + 1) := by omega
        rw [harith]; exact hfirst (j + 1) (by omega)
      have hstep := (ih (i + 1) (e + pollIntervalMs) f hset' hfirst'
        (by omega)).2
      have harith : e + pollIntervalMs + k * pollIntervalMs =
          e + (k + 1) * pollIntervalMs := by
        simp [pollIntervalMs]; ring
      simp only [get_message_loop, h0, Bool.false_eq_true, if_false]
      rw [hstep, harith]

/-- C7 witness: a flag set from the third iteration on cancels a concrete
blocked loop after exactly two poll sleeps. -/
theorem cancelled_within_one_poll_interval_witness :
    pollIntervalMs = 100 ∧
    get_message_loop (fun j => decide (2 ≤ j)) (fun _ => .readWouldBlock)
      demo_ready_state 0 0 4 =
      some (demo_ready_state, 0 + 2 * pollIntervalMs, .error .cancelled) :=
  cancelled_within_one_poll_interval (fun j => decide (2 ≤ j))
    demo_ready_state 2 0 0 4 (by decide) (by decide) (by decide)

/-- C9: the `Iterator` impl never ends the stream: whenever `next()`
returns, the item is `Some(result)`, never `None`. -/
theorem iterator_never_returns_none (flag : Nat → Bool)
    (sched : Nat → IterInput) (s : WlClipboardListener) (fuel : Nat)
    (x : Option (WlClipboardListener × Nat ×
      Except WlReadError ClipBoardListenMessage))
    (h : listener_next flag sched s fuel = some x) : x.isSome = true := by
  unfold listener_next at h
  cases hg : get_message flag sched s fuel <;> rw [hg] at h
  · simp at h
  · simp only [Option.some.injEq] at h
    rw [← h]
    rfl

/-- C9 witness: on a fresh state with no stored queue, `next()` yields a
`Some` item (an error, not end-of-stream). -/
theorem iterator_never_returns_none_witness :
    (some (fresh_listener_state, 0,
      (Except.error .queueUninit :
        Except WlReadError ClipBoardListenMessage))).isSome = true :=
  iterator_never_returns_none (fun _ => false) (fun _ => .readErr)
    fresh_listener_state 0 _ (by rfl)

/-- C10: a device `Selection` event carrying no offer leaves the state
unchanged (no `copied`, no format change, no effect), and a loop iteration
that dispatches only such an event just continues with the next
iteration. -/
theorem selection_without_offer_is_ignored (s : WlClipboardListener) :
    device_event s (.selection none) = (s, []) ∧
    (∀ (flag : Nat → Bool) (sched : Nat → IterInput) (i e fuel : Nat),
      flag i = false → sched i = .readOk 1 [.dev (.selection none)] →
      s.copied = false →
      get_message_loop flag sched s i e (fuel + 1) =
        get_message_loop flag sched s (i + 1) e fuel) := by
  constructor
  · rfl
  · intro flag sched i e fuel hf hs hc
    simp [get_message_loop, hf, hs, dispatch_pending, dispatch_event,
      device_event, hc]

/-- C10 witness: on the concrete post-`init` state, an offer-less
`Selection` iteration just advances the loop. -/
theorem selection_without_offer_is_ignored_witness :
    get_message_loop (fun _ => false)
      (fun _ => .readOk 1 [.dev (.selection none)]) demo_ready_state 0 0 1 =
    get_message_loop (fun _ => false)
      (fun _ => .readOk 1 [.dev (.selection none)]) demo_ready_state 1 0 0 :=
  (selection_without_offer_is_ignored demo_ready_state).2 (fun _ => false)
    (fun _ => .readOk 1 [.dev (.selection none)]) 0 0 0 (by rfl) (by rfl)
    (by rfl)

/-- C1: refuted on the code.  The first change (one offer with mime type
`"text/a"`) is reported correctly and `copied` is false afterwards, but the
accumulating `mime_types` buffer is never cleared, so the second change
(one offer with mime type `"text/b"`) is reported as
`["text/a", "text/b"]` instead of exactly `["text/b"]`: a format from an
earlier change appears in the later change's list. -/
theorem mime_buffer_never_cleared_across_changes :
    get_message (fun _ => false)
      (fun _ => .readOk 1
        [.dev (.dataOffer 1), .offer 1 "text/a", .dev (.selection (some 1))])
      demo_ready_state 1 =
      some ({ demo_ready_state with mime_types := ["text/a"] }, 0,
        .ok { mime_types := ["text/a"] }) ∧
    get_message (fun _ => false)
      (fun _ => .readOk 1
        [.dev (.dataOffer 2), .offer 2 "text/b", .dev (.selection (some 2))])
      { demo_ready_state with mime_types := ["text/a"] } 1 =
      some ({ demo_ready_state with mime_types := ["text/a", "text/b"] }, 0,
        .ok { mime_types := ["text/a", "text/b"] }) ∧
    ({ mime_types := ["text/a", "text/b"] } : ClipBoardListenMessage) ≠
      { mime_types := ["text/b"] } := by
  refine ⟨by rfl, by rfl, by decide⟩

/-- C4: refuted on the code.  The `PrimarySelection` handler does destroy
the offer, but the mime types the primary-selection offer advertised
before that event were already pushed onto the shared `mime_types` buffer
by the offer dispatch, so they appear in the list returned for the next
genuine `Selection` change: `"text/primary"` leaks into the message that
the claim says should be exactly `["text/real"]`. -/
theorem primary_selection_mimes_leak_into_message :
    (dispatch_pending demo_ready_state
      [.dev (.dataOffer 1), .offer 1 "text/primary",
       .dev (.primarySelection (some 1))]).2 = [WlEffect.destroyOffer 1] ∧
    get_message (fun _ => false)
      (fun _ => .readOk 1
        [.dev (.dataOffer 1), .offer 1 "text/primary",
         .dev (.primarySelection (some 1)), .dev (.dataOffer 2),
         .offer 2 "text/real", .dev (.selection (some 2))])
      demo_ready_state 1 =
      some ({ demo_ready_state with
                mime_types := ["text/primary", "text/real"] }, 0,
        .ok { mime_types := ["text/primary", "text/real"] }) ∧
    "text/primary" ∈
      ({ mime_types := ["text/primary", "text/real"] } :
        ClipBoardListenMessage).mime_types := by
  refine ⟨by rfl, by rfl, by decide⟩

end ClipboardMaster
